import Mathlib

/-!
Verification of the PTP-CAD pretest-probability calculator core logic.

The repository ships three near-duplicate implementations of the same pure
core (script.js and two variants in one further source file).  The spec's
design notes declare canonical the variant with full flag accumulation and
the three-bucket CAC classification (≤99 / 100–999 / ≥1000).  We embed:

 * `getAgeBand`  — identical in all variants;
 * `PTP_TABLE`   — identical in all variants;
 * `calculatePretestProbability` — the full flag-accumulating variant that
   reports `ageBand` and `ptpPercent` in its results;
 * `interpretCAC` — the standalone classifier variant that handles
   null/undefined/empty input itself and returns a structured failure on
   invalid numbers (four display buckets);
 * `interpretCACv4` — the "CAC-pill-fix-v4" variant with the canonical
   three probability buckets and `low`/`intermediateHigh`/`high` categories;
 * `classifyCAC` — the guarded call site `cac ≠ "" ? interpretCAC(cac) : null`
   composed with `interpretCACv4`, i.e. the spec's `classify` contract;
 * `onCalculate` — the pure content of the event handler: PTP result,
   CAC result and merged flag list.

JavaScript numbers are modelled as `Option ℚ` (`none` = not finite:
NaN/±∞); enum-like string inputs are modelled as `String` (an omitted
select value is the empty string); table percents are `ℕ`.
-/

/-- A diagnostic flag: severity level (`"bad"` or `"warn"`) and message. -/
structure PtpFlag where
  level : String
  msg : String
  deriving Repr, DecidableEq

/-- Result of `calculatePretestProbability`.  Fields absent from a given
JavaScript return object are `none`.  `ageBand` is `none` when the band
itself was `null`. -/
structure PtpResult where
  ok : Bool
  ptpPercent : Option ℕ
  ptpDisplay : Option String
  category : Option String
  ageBand : Option String
  flags : List PtpFlag
  deriving Repr, DecidableEq

/-- `getAgeBand` from the source: maps a (possibly non-finite) age to an
age-band key, `none` for non-finite input. -/
def getAgeBand (ageYears : Option ℚ) : Option String :=
  match ageYears with
  | none => none
  | some a =>
    if a < 30 then some "lt30"
    else if a ≤ 39 then some "30-39"
    else if a ≤ 49 then some "40-49"
    else if a ≤ 59 then some "50-59"
    else if a ≤ 69 then some "60-69"
    else some "70+"

/-- `PTP_TABLE` from the source: the fixed three-level lookup
symptom → sex → age-band → percent; `none` where JavaScript property
access would yield `undefined`. -/
def PTP_TABLE (symptom sex band : String) : Option ℕ :=
  match symptom, sex, band with
  | "chestPain", "men", "30-39" => some 4
  | "chestPain", "men", "40-49" => some 22
  | "chestPain", "men", "50-59" => some 32
  | "chestPain", "men", "60-69" => some 44
  | "chestPain", "men", "70+" => some 52
  | "chestPain", "women", "30-39" => some 5
  | "chestPain", "women", "40-49" => some 10
  | "chestPain", "women", "50-59" => some 13
  | "chestPain", "women", "60-69" => some 16
  | "chestPain", "women", "70+" => some 27
  | "dyspnea", "men", "30-39" => some 0
  | "dyspnea", "men", "40-49" => some 12
  | "dyspnea", "men", "50-59" => some 20
  | "dyspnea", "men", "60-69" => some 27
  | "dyspnea", "men", "70+" => some 32
  | "dyspnea", "women", "30-39" => some 3
  | "dyspnea", "women", "40-49" => some 3
  | "dyspnea", "women", "50-59" => some 9
  | "dyspnea", "women", "60-69" => some 14
  | "dyspnea", "women", "70+" => some 12
  | _, _, _ => none

/-- The four sequential validation pushes of `calculatePretestProbability`:
bad flag for a non-computable band, warn flag for `lt30`, bad flags for an
invalid sex or symptom.  `!sex` on a string is truthy exactly for `""`. -/
def validationFlags (ageBand : Option String) (sex symptom : String) : List PtpFlag :=
  (if ageBand = none then
    [⟨"bad", "Age is required and must be a number."⟩] else [])
  ++ (if ageBand = some "lt30" then
    [⟨"warn", "Age <30: the provided figure table begins at 30–39. Result may not be applicable."⟩] else [])
  ++ (if sex = "" ∨ ¬ (sex = "men" ∨ sex = "women") then
    [⟨"bad", "Sex is required."⟩] else [])
  ++ (if symptom = "" ∨ ¬ (symptom = "chestPain" ∨ symptom = "dyspnea") then
    [⟨"bad", "Symptom selection is required."⟩] else [])

/-- `calculatePretestProbability` from the source (full variant):
validate while accumulating flags, fail if any bad flag, fail with an
extra bad flag for ages below 30, look up the table, and succeed with
percent, display string, category, band and flags. -/
def calculatePretestProbability (ageYears : Option ℚ) (sex symptom : String) :
    PtpResult :=
  let ageBand := getAgeBand ageYears
  let flags := validationFlags ageBand sex symptom
  if flags.any (fun f => f.level = "bad") then
    { ok := false, ptpPercent := none, ptpDisplay := none, category := none,
      ageBand := ageBand, flags := flags }
  else if ageBand = some "lt30" then
    { ok := false, ptpPercent := none, ptpDisplay := none, category := none,
      ageBand := ageBand,
      flags := flags ++ [⟨"bad", "No table value available for age <30 from the provided figure. Cannot compute."⟩] }
  else
    match ageBand.bind (fun b => PTP_TABLE symptom sex b) with
    | none =>
      { ok := false, ptpPercent := none, ptpDisplay := none, category := none,
        ageBand := ageBand,
        flags := flags ++ [⟨"bad", "No matching table value found (check inputs)."⟩] }
    | some ptp =>
      { ok := true, ptpPercent := some ptp,
        ptpDisplay := some ("≤" ++ toString ptp ++ "%"),
        category := some (if ptp ≤ 15 then "low" else "intermediateHigh"),
        ageBand := ageBand, flags := flags }

/-- The raw CAC input as the DOM/caller supplies it: absent
(null/undefined/empty string), a value whose `Number(...)` conversion is
not finite, or a finite numeric value. -/
inductive CacInput where
  | missing
  | notNum
  | num (v : ℚ)
  deriving Repr, DecidableEq

/-- Result object of the standalone `interpretCAC` variant. -/
structure CacResultA where
  ok : Bool
  bucket : Option String
  ptpRange : Option String
  level : Option String
  label : Option String
  detail : Option String
  deriving Repr, DecidableEq

/-- `interpretCAC` from the source (standalone variant): `null` for
missing input, a structured failure for non-finite or negative numbers,
and four display buckets (0, 1–99, 100–999, ≥1000). -/
def interpretCAC (cacScore : CacInput) : Option CacResultA :=
  match cacScore with
  | .missing => none
  | .notNum =>
    some { ok := false, bucket := none, ptpRange := none, level := some "bad",
           label := some "Invalid CAC", detail := some "CAC must be a number ≥ 0." }
  | .num n =>
    if n < 0 then
      some { ok := false, bucket := none, ptpRange := none, level := some "bad",
             label := some "Invalid CAC", detail := some "CAC must be a number ≥ 0." }
    else if n = 0 then
      some { ok := true, bucket := some "0", ptpRange := some "≤15%",
             level := some "low", label := some "CAC 0",
             detail := some "Figure-style interpretation: CAC 0 → ≤15%." }
    else if 1 ≤ n ∧ n ≤ 99 then
      some { ok := true, bucket := some "1-99", ptpRange := some "≤15%",
             level := some "low", label := some "CAC 1–99",
             detail := some "CAC 1–99 → ≤15% (low)." }
    else if 100 ≤ n ∧ n ≤ 999 then
      some { ok := true, bucket := some "100-999", ptpRange := some ">15–50%",
             level := some "high", label := some "CAC 100–999",
             detail := some "CAC 100–999 → >15–50%." }
    else
      some { ok := true, bucket := some ">=1000", ptpRange := some ">50%",
             level := some "veryhigh", label := some "CAC ≥1000",
             detail := some "CAC ≥1000 → >50%." }

/-- Result object of the `interpretCAC` "v4" variant. -/
structure CacResultB where
  ok : Bool
  range : Option String
  category : Option String
  msg : Option String
  deriving Repr, DecidableEq

/-- The "CAC-pill-fix-v4" `interpretCAC` from the source, taking the
already-converted number (`none` = not finite): failure for non-finite or
negative, then the three buckets ≤99 / ≤999 / otherwise. -/
def interpretCACv4 (n : Option ℚ) : CacResultB :=
  match n with
  | none =>
    { ok := false, range := none, category := none,
      msg := some "CAC must be a number ≥ 0." }
  | some v =>
    if v < 0 then
      { ok := false, range := none, category := none,
        msg := some "CAC must be a number ≥ 0." }
    else if v ≤ 99 then
      { ok := true, range := some "≤15%", category := some "low", msg := none }
    else if v ≤ 999 then
      { ok := true, range := some ">15–50%", category := some "intermediateHigh",
        msg := none }
    else
      { ok := true, range := some ">50%", category := some "high", msg := none }

/-- The v4 call site's guarded classification,
`cacVal ≠ "" ∧ cacVal ≠ null ∧ cacVal ≠ undefined ? interpretCAC(cacVal) : null`,
with `Number(...)` conversion folded into the argument: the spec's
`classify` contract. -/
def classifyCAC (raw : CacInput) : Option CacResultB :=
  match raw with
  | .missing => none
  | .notNum => some (interpretCACv4 none)
  | .num v => some (interpretCACv4 (some v))

/-- The pure content of the `onCalculate` event handler (full variant):
the PTP result from age/sex/symptom, the guarded CAC result, and the
merged flag list shown to the user. -/
def onCalculate (age : Option ℚ) (sex symptom : String) (cac : CacInput) :
    PtpResult × Option CacResultA × List PtpFlag :=
  let ptpObj := calculatePretestProbability age sex symptom
  let cacObj := match cac with
    | .missing => none
    | c => interpretCAC c
  let merged₁ :=
    if ptpObj.ok then
      ptpObj.flags
      ++ (match age with
          | some q =>
            (if 100 < q then [⟨"warn", "Age >100: verify input."⟩] else [])
            ++ (if q < 30 then
                [⟨"warn", "Age <30: outside figure range; computation not provided."⟩]
                else [])
          | none => [])
    else ptpObj.flags
  let merged₂ := merged₁
    ++ (match cacObj with
        | some c => if c.ok = false then [⟨"bad", "CAC input invalid (must be ≥0)."⟩] else []
        | none => [])
  (ptpObj, cacObj, merged₂)

/-! ### Helper lemmas -/

theorem getAgeBand_of_lt30 {q : ℚ} (h : q < 30) :
    getAgeBand (some q) = some "lt30" := by
  simp [getAgeBand, h]

theorem getAgeBand_bands_of_ge30 {q : ℚ} (h : 30 ≤ q) :
    getAgeBand (some q) = some "30-39" ∨ getAgeBand (some q) = some "40-49" ∨
    getAgeBand (some q) = some "50-59" ∨ getAgeBand (some q) = some "60-69" ∨
    getAgeBand (some q) = some "70+" := by
  simp only [getAgeBand]
  split_ifs with h1 h2 h3 h4 h5
  · linarith
  · tauto
  · tauto
  · tauto
  · tauto
  · tauto

/-! ### Claim theorems -/

/-- C4: `getAgeBand` sends non-finite input to `null` and otherwise
partitions the ages: below 30 to `lt30`, then the five bands
`30-39` (30 ≤ age ≤ 39), `40-49` (39 < age ≤ 49), `50-59`, `60-69`, and
`70+` (69 < age); each characterisation is an equivalence, so the bands
neither overlap nor leave gaps, every finite age ≥ 30 (integer or not)
falls in exactly one band, and every age in the claim's closed intervals
[30,39], [40,49], [50,59], [60,69], [70,∞) lands in the named band. -/
theorem getAgeBand_characterization (q : ℚ) :
    getAgeBand none = none ∧
    (getAgeBand (some q) = some "lt30" ↔ q < 30) ∧
    (getAgeBand (some q) = some "30-39" ↔ 30 ≤ q ∧ q ≤ 39) ∧
    (getAgeBand (some q) = some "40-49" ↔ 39 < q ∧ q ≤ 49) ∧
    (getAgeBand (some q) = some "50-59" ↔ 49 < q ∧ q ≤ 59) ∧
    (getAgeBand (some q) = some "60-69" ↔ 59 < q ∧ q ≤ 69) ∧
    (getAgeBand (some q) = some "70+" ↔ 69 < q) := by
  refine ⟨rfl, ?_, ?_, ?_, ?_, ?_, ?_⟩ <;>
  · simp only [getAgeBand]
    split_ifs <;> constructor <;> intro hx <;>
      first
        | rfl
        | (exfalso; simp_all; linarith)
        | (constructor <;> linarith)
        | linarith
        | simp_all

/-- Witness for C4: age 39.5 falls in the `40-49` band, age 29.9 in
`lt30`, via the characterisation theorem. -/
theorem getAgeBand_characterization_witness :
    getAgeBand (some (79/2 : ℚ)) = some "40-49" ∧
    getAgeBand (some (299/10 : ℚ)) = some "lt30" :=
  ⟨((getAgeBand_characterization (79/2)).2.2.2.1).mpr (by norm_num),
   ((getAgeBand_characterization (299/10)).2.1).mpr (by norm_num)⟩

/-- C9: every result of `calculatePretestProbability` — failures
included — carries the resolved age-band exactly as `getAgeBand`
computed it, so when the age was finite the failure still reports the
band. -/
theorem calculatePretestProbability_reports_ageBand
    (a : Option ℚ) (sex symptom : String) :
    (calculatePretestProbability a sex symptom).ageBand = getAgeBand a := by
  simp only [calculatePretestProbability]
  split
  · rfl
  · split
    · rfl
    · split <;> rfl

theorem validationFlags_subset_result (a : Option ℚ) (s y : String) :
    ∀ f ∈ validationFlags (getAgeBand a) s y,
      f ∈ (calculatePretestProbability a s y).flags := by
  intro f hf
  simp only [calculatePretestProbability]
  split
  · exact hf
  · split
    · exact List.mem_append_left _ hf
    · split
      · exact List.mem_append_left _ hf
      · exact hf

theorem result_fail_of_any_bad (a : Option ℚ) (s y : String)
    (h : (validationFlags (getAgeBand a) s y).any (fun f => f.level = "bad") = true) :
    calculatePretestProbability a s y =
      { ok := false, ptpPercent := none, ptpDisplay := none, category := none,
        ageBand := getAgeBand a, flags := validationFlags (getAgeBand a) s y } := by
  simp only [calculatePretestProbability]
  rw [if_pos h]

theorem any_bad_of_mem {l : List PtpFlag} {f : PtpFlag}
    (hf : f ∈ l) (hl : f.level = "bad") :
    l.any (fun f => f.level = "bad") = true :=
  List.any_eq_true.mpr ⟨f, hf, by simp [hl]⟩

theorem age_flag_mem {b : Option String} {s y : String} (hb : b = none) :
    (⟨"bad", "Age is required and must be a number."⟩ : PtpFlag) ∈
      validationFlags b s y := by
  unfold validationFlags
  rw [if_pos hb]
  simp

theorem warn_flag_mem {b : Option String} {s y : String} (hb : b = some "lt30") :
    (⟨"warn", "Age <30: the provided figure table begins at 30–39. Result may not be applicable."⟩ : PtpFlag) ∈
      validationFlags b s y := by
  unfold validationFlags
  rw [if_pos hb]
  simp

theorem sex_flag_mem {b : Option String} {s y : String}
    (h : ¬ (s = "men" ∨ s = "women")) :
    (⟨"bad", "Sex is required."⟩ : PtpFlag) ∈ validationFlags b s y := by
  unfold validationFlags
  rw [if_pos (Or.inr h)]
  simp

theorem symptom_flag_mem {b : Option String} {s y : String}
    (h : ¬ (y = "chestPain" ∨ y = "dyspnea")) :
    (⟨"bad", "Symptom selection is required."⟩ : PtpFlag) ∈ validationFlags b s y := by
  unfold validationFlags
  rw [if_pos (Or.inr h)]
  simp

theorem resolve_not_ok_of_bad_flag {a : Option ℚ} {s y : String} {f : PtpFlag}
    (hf : f ∈ validationFlags (getAgeBand a) s y) (hl : f.level = "bad") :
    (calculatePretestProbability a s y).ok = false := by
  rw [result_fail_of_any_bad a s y (any_bad_of_mem hf hl)]

theorem resolve_success_form (q : ℚ) (hq : 30 ≤ q) (s y : String)
    (hs : s = "men" ∨ s = "women") (hy : y = "chestPain" ∨ y = "dyspnea") :
    ∃ b p, getAgeBand (some q) = some b ∧ PTP_TABLE y s b = some p ∧
      calculatePretestProbability (some q) s y =
        { ok := true, ptpPercent := some p,
          ptpDisplay := some ("≤" ++ toString p ++ "%"),
          category := some (if p ≤ 15 then "low" else "intermediateHigh"),
          ageBand := some b, flags := [] } := by
  rcases getAgeBand_bands_of_ge30 hq with hb | hb | hb | hb | hb <;>
    rcases hs with rfl | rfl <;> rcases hy with rfl | rfl <;>
    exact ⟨_, _, hb, rfl, by simp [calculatePretestProbability, hb, validationFlags]; try rfl⟩

theorem resolve_lt30_not_ok {q : ℚ} (hq : q < 30) (s y : String) :
    (calculatePretestProbability (some q) s y).ok = false := by
  have hb := getAgeBand_of_lt30 hq
  simp only [calculatePretestProbability, hb]
  split
  · rfl
  · simp

theorem resolve_ok_conditions (a : Option ℚ) (s y : String)
    (h : (calculatePretestProbability a s y).ok = true) :
    ∃ q, a = some q ∧ 30 ≤ q ∧ (s = "men" ∨ s = "women") ∧
      (y = "chestPain" ∨ y = "dyspnea") := by
  by_cases hs : s = "men" ∨ s = "women"
  · by_cases hy : y = "chestPain" ∨ y = "dyspnea"
    · match a with
      | none =>
        have hk := resolve_not_ok_of_bad_flag (a := none) (s := s) (y := y)
          (age_flag_mem rfl) rfl
        rw [h] at hk
        simp at hk
      | some q =>
        by_cases hq : q < 30
        · have hk := resolve_lt30_not_ok hq s y
          rw [h] at hk
          simp at hk
        · exact ⟨q, rfl, le_of_not_lt hq, hs, hy⟩
    · have hk := resolve_not_ok_of_bad_flag (a := a) (s := s) (y := y)
        (symptom_flag_mem hy) rfl
      rw [h] at hk
      simp at hk
  · have hk := resolve_not_ok_of_bad_flag (a := a) (s := s) (y := y)
      (sex_flag_mem hs) rfl
    rw [h] at hk
    simp at hk

theorem resolve_ok_flags_nil (a : Option ℚ) (s y : String)
    (h : (calculatePretestProbability a s y).ok = true) :
    (calculatePretestProbability a s y).flags = [] := by
  obtain ⟨q, rfl, hq, hs, hy⟩ := resolve_ok_conditions a s y h
  obtain ⟨b, p, _, _, heq⟩ := resolve_success_form q hq s y hs hy
  rw [heq]

/-- C1: for every valid triple — finite age at least 30 (band neither
null nor `lt30`), sex in the two-element enum, symptom in the
two-element enum — `calculatePretestProbability` succeeds carrying the
looked-up table percent, the display string `"≤" ++ percent ++ "%"`, the
resolved age-band, category `low` iff the percent is ≤ 15 and
`intermediateHigh` otherwise; in particular (45, men, chestPain) gives
percent 22 / `intermediateHigh` and (35, women, dyspnea) gives percent 3
/ `low`. -/
theorem resolve_valid_triple_success :
    (∀ (q : ℚ), 30 ≤ q → ∀ (s y : String), (s = "men" ∨ s = "women") →
      (y = "chestPain" ∨ y = "dyspnea") →
      ∃ b p, getAgeBand (some q) = some b ∧ PTP_TABLE y s b = some p ∧
        calculatePretestProbability (some q) s y =
          { ok := true, ptpPercent := some p,
            ptpDisplay := some ("≤" ++ toString p ++ "%"),
            category := some (if p ≤ 15 then "low" else "intermediateHigh"),
            ageBand := some b, flags := [] }) ∧
    calculatePretestProbability (some 45) "men" "chestPain" =
      { ok := true, ptpPercent := some 22, ptpDisplay := some "≤22%",
        category := some "intermediateHigh", ageBand := some "40-49",
        flags := [] } ∧
    calculatePretestProbability (some 35) "women" "dyspnea" =
      { ok := true, ptpPercent := some 3, ptpDisplay := some "≤3%",
        category := some "low", ageBand := some "30-39", flags := [] } :=
  ⟨fun q hq s y hs hy => resolve_success_form q hq s y hs hy,
   by decide, by decide⟩

/-- Witness for C1: instantiating the universal part at age 45, men,
chest pain. -/
theorem resolve_valid_triple_success_witness :
    ∃ b p, getAgeBand (some (45 : ℚ)) = some b ∧
      PTP_TABLE "chestPain" "men" b = some p ∧
      calculatePretestProbability (some 45) "men" "chestPain" =
        { ok := true, ptpPercent := some p,
          ptpDisplay := some ("≤" ++ toString p ++ "%"),
          category := some (if p ≤ 15 then "low" else "intermediateHigh"),
          ageBand := some b, flags := [] } :=
  resolve_valid_triple_success.1 45 (by norm_num) "men" "chestPain"
    (Or.inl rfl) (Or.inl rfl)

/-- C3: validation does not short-circuit — each applicable flag is
collected independently of the other inputs: a non-finite age always
contributes its `bad` flag, an age below 30 its `warn` flag, an invalid
sex its `bad` flag, and an invalid symptom its `bad` flag, and each bad
one forces a failure; in particular any invalid sex yields a failure
whose flags contain the missing-sex `bad` flag, whatever the age and
symptom. -/
theorem resolve_accumulates_all_flags :
    (∀ (s y : String),
      (⟨"bad", "Age is required and must be a number."⟩ : PtpFlag) ∈
          (calculatePretestProbability none s y).flags ∧
        (calculatePretestProbability none s y).ok = false) ∧
    (∀ (q : ℚ) (s y : String), q < 30 →
      (⟨"warn", "Age <30: the provided figure table begins at 30–39. Result may not be applicable."⟩ : PtpFlag) ∈
        (calculatePretestProbability (some q) s y).flags) ∧
    (∀ (a : Option ℚ) (s y : String), ¬ (s = "men" ∨ s = "women") →
      (⟨"bad", "Sex is required."⟩ : PtpFlag) ∈
          (calculatePretestProbability a s y).flags ∧
        (calculatePretestProbability a s y).ok = false) ∧
    (∀ (a : Option ℚ) (s y : String), ¬ (y = "chestPain" ∨ y = "dyspnea") →
      (⟨"bad", "Symptom selection is required."⟩ : PtpFlag) ∈
          (calculatePretestProbability a s y).flags ∧
        (calculatePretestProbability a s y).ok = false) := by
  refine ⟨fun s y => ⟨?_, ?_⟩, fun q s y hq => ?_,
    fun a s y hs => ⟨?_, ?_⟩, fun a s y hy => ⟨?_, ?_⟩⟩
  · exact validationFlags_subset_result none s y _ (age_flag_mem rfl)
  · exact resolve_not_ok_of_bad_flag (age_flag_mem rfl) rfl
  · exact validationFlags_subset_result (some q) s y _
      (warn_flag_mem (getAgeBand_of_lt30 hq))
  · exact validationFlags_subset_result a s y _ (sex_flag_mem hs)
  · exact resolve_not_ok_of_bad_flag (sex_flag_mem hs) rfl
  · exact validationFlags_subset_result a s y _ (symptom_flag_mem hy)
  · exact resolve_not_ok_of_bad_flag (symptom_flag_mem hy) rfl

/-- Witness for C3: age 50 with symptom dyspnea and the sex field left
empty fails with the missing-sex `bad` flag; also the other three flag
kinds at concrete inputs. -/
theorem resolve_accumulates_all_flags_witness :
    ((⟨"bad", "Sex is required."⟩ : PtpFlag) ∈
        (calculatePretestProbability (some 50) "" "dyspnea").flags ∧
      (calculatePretestProbability (some 50) "" "dyspnea").ok = false) ∧
    ((⟨"bad", "Age is required and must be a number."⟩ : PtpFlag) ∈
        (calculatePretestProbability none "men" "dyspnea").flags ∧
      (calculatePretestProbability none "men" "dyspnea").ok = false) ∧
    (⟨"warn", "Age <30: the provided figure table begins at 30–39. Result may not be applicable."⟩ : PtpFlag) ∈
      (calculatePretestProbability (some 25) "men" "chestPain").flags ∧
    ((⟨"bad", "Symptom selection is required."⟩ : PtpFlag) ∈
        (calculatePretestProbability (some 50) "men" "").flags ∧
      (calculatePretestProbability (some 50) "men" "").ok = false) :=
  ⟨resolve_accumulates_all_flags.2.2.1 (some 50) "" "dyspnea" (by decide),
   resolve_accumulates_all_flags.1 "men" "dyspnea",
   resolve_accumulates_all_flags.2.1 25 "men" "chestPain" (by norm_num),
   resolve_accumulates_all_flags.2.2.2 (some 50) "men" "" (by decide)⟩

/-- C5: for every finite age below 30 with valid sex and symptom, the
resolver emits the warn flag about the table starting at 30 and returns
a failure whose flags also contain the `bad` flag stating that no table
value exists below 30. -/
theorem resolve_below30_warn_then_bad (q : ℚ) (hq : q < 30) (s y : String)
    (hs : s = "men" ∨ s = "women") (hy : y = "chestPain" ∨ y = "dyspnea") :
    calculatePretestProbability (some q) s y =
      { ok := false, ptpPercent := none, ptpDisplay := none, category := none,
        ageBand := some "lt30",
        flags := [⟨"warn", "Age <30: the provided figure table begins at 30–39. Result may not be applicable."⟩,
                  ⟨"bad", "No table value available for age <30 from the provided figure. Cannot compute."⟩] } := by
  have hb := getAgeBand_of_lt30 hq
  rcases hs with rfl | rfl <;> rcases hy with rfl | rfl <;>
    simp [calculatePretestProbability, hb, validationFlags]

/-- Witness for C5: age 25, men, chest pain fails with the warn flag and
the no-table-value `bad` flag. -/
theorem resolve_below30_warn_then_bad_witness :
    calculatePretestProbability (some 25) "men" "chestPain" =
      { ok := false, ptpPercent := none, ptpDisplay := none, category := none,
        ageBand := some "lt30",
        flags := [⟨"warn", "Age <30: the provided figure table begins at 30–39. Result may not be applicable."⟩,
                  ⟨"bad", "No table value available for age <30 from the provided figure. Cannot compute."⟩] } :=
  resolve_below30_warn_then_bad 25 (by norm_num) "men" "chestPain"
    (Or.inl rfl) (Or.inl rfl)

/-- C7: whenever `calculatePretestProbability` succeeds, its flag list
contains no `bad`-level flag. -/
theorem resolve_success_no_bad_flag (a : Option ℚ) (s y : String)
    (h : (calculatePretestProbability a s y).ok = true) :
    (calculatePretestProbability a s y).flags.all
      (fun f => f.level ≠ "bad") = true := by
  rw [resolve_ok_flags_nil a s y h]
  rfl

/-- Witness for C7: the success at age 35, women, dyspnea carries no
`bad` flag. -/
theorem resolve_success_no_bad_flag_witness :
    (calculatePretestProbability (some 35) "women" "dyspnea").flags.all
      (fun f => f.level ≠ "bad") = true :=
  resolve_success_no_bad_flag (some 35) "women" "dyspnea" (by decide)

/-- C10: whenever `calculatePretestProbability` succeeds its flag list is
exactly empty — the only non-bad flag (the warn for age below 30) occurs
only on paths that end in failure. -/
theorem resolve_success_flags_exactly_empty (a : Option ℚ) (s y : String)
    (h : (calculatePretestProbability a s y).ok = true) :
    (calculatePretestProbability a s y).flags = [] :=
  resolve_ok_flags_nil a s y h

/-- Witness for C10: the success at age 45, men, chest pain has the empty
flag list. -/
theorem resolve_success_flags_exactly_empty_witness :
    (calculatePretestProbability (some 45) "men" "chestPain").flags = [] :=
  resolve_success_flags_exactly_empty (some 45) "men" "chestPain" (by decide)

/-- C2: the guarded CAC classification sends every value in [0,99] to a
success with category `low` and range label "≤15%", every value in
[100,999] to `intermediateHigh` / ">15–50%", and every value ≥ 1000 to
`high` / ">50%". -/
theorem classifyCAC_buckets (v : ℚ) :
    (0 ≤ v → v ≤ 99 → classifyCAC (.num v) =
      some { ok := true, range := some "≤15%", category := some "low",
             msg := none }) ∧
    (100 ≤ v → v ≤ 999 → classifyCAC (.num v) =
      some { ok := true, range := some ">15–50%",
             category := some "intermediateHigh", msg := none }) ∧
    (1000 ≤ v → classifyCAC (.num v) =
      some { ok := true, range := some ">50%", category := some "high",
             msg := none }) := by
  refine ⟨fun h0 h99 => ?_, fun h100 h999 => ?_, fun h1000 => ?_⟩ <;>
  · simp only [classifyCAC, interpretCACv4]
    split_ifs <;> first | rfl | linarith

/-- Witness for C2: the boundary values 0, 99, 100, 999, 1000 land in
the claimed buckets. -/
theorem classifyCAC_buckets_witness :
    classifyCAC (.num 0) =
      some { ok := true, range := some "≤15%", category := some "low",
             msg := none } ∧
    classifyCAC (.num 99) =
      some { ok := true, range := some "≤15%", category := some "low",
             msg := none } ∧
    classifyCAC (.num 100) =
      some { ok := true, range := some ">15–50%",
             category := some "intermediateHigh", msg := none } ∧
    classifyCAC (.num 999) =
      some { ok := true, range := some ">15–50%",
             category := some "intermediateHigh", msg := none } ∧
    classifyCAC (.num 1000) =
      some { ok := true, range := some ">50%", category := some "high",
             msg := none } :=
  ⟨(classifyCAC_buckets 0).1 (by norm_num) (by norm_num),
   (classifyCAC_buckets 99).1 (by norm_num) (by norm_num),
   (classifyCAC_buckets 100).2.1 (by norm_num) (by norm_num),
   (classifyCAC_buckets 999).2.1 (by norm_num) (by norm_num),
   (classifyCAC_buckets 1000).2.2 (by norm_num)⟩

/-- C6: the CAC classifier returns `null` for empty/null/undefined input,
and a structured failure (never `null`, never a success) for input whose
numeric conversion is non-finite or negative; and the PTP result computed
by the calculate handler does not depend on the CAC input at all. -/
theorem interpretCAC_invalid_isolated :
    interpretCAC .missing = none ∧
    interpretCAC .notNum =
      some { ok := false, bucket := none, ptpRange := none,
             level := some "bad", label := some "Invalid CAC",
             detail := some "CAC must be a number ≥ 0." } ∧
    (∀ v : ℚ, v < 0 → interpretCAC (.num v) =
      some { ok := false, bucket := none, ptpRange := none,
             level := some "bad", label := some "Invalid CAC",
             detail := some "CAC must be a number ≥ 0." }) ∧
    (∀ (a : Option ℚ) (s y : String) (c₁ c₂ : CacInput),
      (onCalculate a s y c₁).1 = (onCalculate a s y c₂).1) := by
  refine ⟨rfl, rfl, fun v hv => ?_, fun a s y c₁ c₂ => rfl⟩
  simp [interpretCAC, hv]

/-- Witness for C6: CAC −1 yields the structured failure, and swapping
the CAC input between −1 and absent leaves the PTP result unchanged. -/
theorem interpretCAC_invalid_isolated_witness :
    interpretCAC (.num (-1)) =
      some { ok := false, bucket := none, ptpRange := none,
             level := some "bad", label := some "Invalid CAC",
             detail := some "CAC must be a number ≥ 0." } ∧
    (onCalculate (some 45) "men" "chestPain" (.num (-1))).1 =
      (onCalculate (some 45) "men" "chestPain" .missing).1 :=
  ⟨interpretCAC_invalid_isolated.2.2.1 (-1) (by norm_num),
   interpretCAC_invalid_isolated.2.2.2 (some 45) "men" "chestPain"
     (.num (-1)) .missing⟩

/-- C8: the probability table is total over its declared enum domain —
every symptom × sex × band combination with band other than `lt30` has a
defined percent, and every defined percent is at most 100 (percents are
naturals, hence at least 0).  The table is a constant definition, never
written after initialization. -/
theorem PTP_TABLE_total_on_domain :
    ∀ symptom ∈ ["chestPain", "dyspnea"], ∀ sex ∈ ["men", "women"],
    ∀ band ∈ ["30-39", "40-49", "50-59", "60-69", "70+"],
      (PTP_TABLE symptom sex band).isSome = true ∧
      (PTP_TABLE symptom sex band).getD 0 ≤ 100 := by decide

/-- Witness for C8: the last cell of the table is defined and in
range. -/
theorem PTP_TABLE_total_on_domain_witness :
    (PTP_TABLE "dyspnea" "women" "70+").isSome = true ∧
    (PTP_TABLE "dyspnea" "women" "70+").getD 0 ≤ 100 :=
  PTP_TABLE_total_on_domain "dyspnea" (by decide) "women" (by decide)
    "70+" (by decide)
